import Mathlib

/-!
Shallow embedding of the seo-audit-tool audit-and-score pipeline
(src/scoring.py and src/audit_engine.py).

Python dictionaries are modelled as structures whose fields are `Option`s:
a `none` field models a missing key (every read in the source goes through
`dict.get` with an explicit default, mirrored here by `Option.getD`).
Python floats are modelled as exact rationals, and Python's `round`
(round-half-to-even) is modelled by `pyRound`.  Python's `ZeroDivisionError`
is modelled by an `Option`-valued division `pyDiv`, so a function that can
raise returns `none` there.
-/

/-- Python `round` on a rational: round half to even (banker's rounding). -/
def pyRound (x : ℚ) : ℤ :=
  if x - ⌊x⌋ < 1/2 then ⌊x⌋
  else if 1/2 < x - ⌊x⌋ then ⌊x⌋ + 1
  else if ⌊x⌋ % 2 = 0 then ⌊x⌋ else ⌊x⌋ + 1

/-- Python `round(x, 1)`: one decimal digit, half to even. -/
def pyRound1 (x : ℚ) : ℚ := (pyRound (x * 10) : ℚ) / 10

/-- Python division `x / n` by a list length: raises (`none`) when `n = 0`. -/
def pyDiv (x : ℚ) (n : ℕ) : Option ℚ :=
  if n = 0 then none else some (x / n)

/-- Truthiness of an optional Python string: `True` iff present and non-empty. -/
def truthyStr : Option String → Bool
  | none => false
  | some s => !s.isEmpty

/-! ## Data model: the audit record consumed by `SEOScorer` -/

/-- Sub-dict `technical['headings']` as read by the scorer. -/
structure HeadingsInfo where
  has_proper_hierarchy : Option Bool
  h1_count : Option ℕ
deriving DecidableEq

/-- Sub-dict `technical['schema_markup']` as read by the scorer. -/
structure SchemaInfo where
  has_schema : Option Bool
deriving DecidableEq

/-- Sub-dict `technical['broken_links']` as read by the scorer. -/
structure BrokenLinksInfo where
  broken_count : Option ℕ
deriving DecidableEq

/-- The `technical` sub-dict of the audit record.
`canonical := none` models both a missing key and a `None` value. -/
structure TechnicalData where
  https : Option Bool
  mobile_responsive : Option Bool
  robots_txt_exists : Option Bool
  sitemap_exists : Option Bool
  schema_markup : Option SchemaInfo
  headings : Option HeadingsInfo
  canonical : Option String
  broken_links : Option BrokenLinksInfo
deriving DecidableEq

/-- Sub-dict `onpage['images']` as read by the scorer. -/
structure ImagesInfo where
  alt_percentage : Option ℚ
  images_without_alt : Option ℕ
deriving DecidableEq

/-- Sub-dict `onpage['internal_links']` as read by the scorer. -/
structure LinksInfo where
  count : Option ℕ
deriving DecidableEq

/-- Sub-dict `onpage['url_structure']` as read by the scorer. -/
structure UrlStructureInfo where
  length : Option ℕ
  uses_hyphens : Option Bool
  path_depth : Option ℕ
deriving DecidableEq

/-- The `onpage` sub-dict of the audit record. -/
structure OnpageData where
  title : Option String
  title_length : Option ℕ
  meta_description_length : Option ℕ
  word_count : Option ℕ
  images : Option ImagesInfo
  internal_links : Option LinksInfo
  url_structure : Option UrlStructureInfo
deriving DecidableEq

/-- The `performance` sub-dict of the audit record. -/
structure PerformanceData where
  load_time_ms : Option ℤ
  lcp : Option ℚ
  cls : Option ℚ
deriving DecidableEq

/-- One entry of `competitors['top_competitors']` as read by the scorer. -/
structure CompetitorEntry where
  title_length : Option ℕ
  description_length : Option ℕ
deriving DecidableEq

/-- The `competitors` sub-dict.  `error := some e` models the `'error'` key
being present; `current_position := none` models a missing key or `None`. -/
structure CompetitorsData where
  keyword : Option String
  error : Option String
  current_position : Option ℕ
  top_competitors : Option (List CompetitorEntry)
deriving DecidableEq

/-- The audit record handed to `SEOScorer`.  A `none` sub-dict models a
missing key (and, for `competitors`, also an empty — hence falsy — dict). -/
structure AuditData where
  technical : Option TechnicalData
  onpage : Option OnpageData
  performance : Option PerformanceData
  competitors : Option CompetitorsData
deriving DecidableEq

/-- `{}`: the empty dict substituted by `audit_data.get('technical', {})`. -/
def emptyTechnical : TechnicalData :=
  ⟨none, none, none, none, none, none, none, none⟩

/-- `{}` for `technical.get('headings', {})`. -/
def emptyHeadingsInfo : HeadingsInfo := ⟨none, none⟩

/-- `{}` for `technical.get('schema_markup', {})`. -/
def emptySchemaInfo : SchemaInfo := ⟨none⟩

/-- `{}` for `technical.get('broken_links', {})`. -/
def emptyBrokenLinksInfo : BrokenLinksInfo := ⟨none⟩

/-- `{}` for `audit_data.get('onpage', {})`. -/
def emptyOnpage : OnpageData := ⟨none, none, none, none, none, none, none⟩

/-- `{}` for `onpage.get('images', {})`. -/
def emptyImagesInfo : ImagesInfo := ⟨none, none⟩

/-- `{}` for `onpage.get('internal_links', {})`. -/
def emptyLinksInfo : LinksInfo := ⟨none⟩

/-- `{}` for `onpage.get('url_structure', {})`. -/
def emptyUrlStructureInfo : UrlStructureInfo := ⟨none, none, none⟩

/-- `{}` for `audit_data.get('performance', {})`. -/
def emptyPerformance : PerformanceData := ⟨none, none, none⟩

/-! ## `SEOScorer._score_technical` -/

/-- `scores['https']` (scoring.py line 63). -/
def https_score (technical : TechnicalData) : ℤ :=
  if technical.https.getD false then 5 else 0

/-- `scores['mobile']` (line 66). -/
def mobile_score (technical : TechnicalData) : ℤ :=
  if technical.mobile_responsive.getD false then 10 else 0

/-- `scores['robots_txt']` (line 69). -/
def robots_txt_score (technical : TechnicalData) : ℤ :=
  if technical.robots_txt_exists.getD false then 5 else 0

/-- `scores['sitemap']` (line 72). -/
def sitemap_score (technical : TechnicalData) : ℤ :=
  if technical.sitemap_exists.getD false then 5 else 0

/-- `scores['schema']` (lines 75-76). -/
def schema_score (technical : TechnicalData) : ℤ :=
  if (technical.schema_markup.getD emptySchemaInfo).has_schema.getD false then 5 else 0

/-- `h1_score` (lines 79-81). -/
def headings_score (technical : TechnicalData) : ℤ :=
  let headings := technical.headings.getD emptyHeadingsInfo
  if headings.has_proper_hierarchy.getD false then 10
  else if headings.h1_count.getD 0 > 0 then 5
  else 0

/-- `scores['canonical']` (line 84): Python truthiness of `technical.get('canonical')`. -/
def canonical_score (technical : TechnicalData) : ℤ :=
  if truthyStr technical.canonical then 5 else 0

/-- `speed_score` tiers (lines 87-98); the caller substitutes 10000 for a
missing `load_time_ms`. -/
def speed_score (load_time : ℤ) : ℤ :=
  if load_time < 2000 then 25
  else if load_time < 3000 then 20
  else if load_time < 5000 then 15
  else if load_time < 7000 then 10
  else 5

/-- `lcp_score` (line 104); caller substitutes 5000 when missing. -/
def lcp_score (lcp : ℚ) : ℤ :=
  if lcp < 2500 then 8 else if lcp < 4000 then 5 else 2

/-- `cls_score` (line 105); caller substitutes 1 when missing.
The float literals 0.1 and 0.25 are modelled as exact rationals. -/
def cls_score (cls : ℚ) : ℤ :=
  if cls < 1/10 then 7 else if cls < 25/100 then 4 else 1

/-- `broken_score` (line 112). -/
def broken_links_score (broken_count : ℕ) : ℤ :=
  if broken_count = 0 then 15 else max 0 (15 - (broken_count : ℤ) * 3)

/-- The `scores` dict built by `_score_technical`. -/
structure TechScores where
  https : ℤ
  mobile : ℤ
  robots_txt : ℤ
  sitemap : ℤ
  schema : ℤ
  headings : ℤ
  canonical : ℤ
  speed : ℤ
  lcp : ℤ
  cls : ℤ
  broken_links : ℤ
deriving DecidableEq

/-- `sum(scores.values())` for the technical category. -/
def TechScores.total (s : TechScores) : ℤ :=
  s.https + s.mobile + s.robots_txt + s.sitemap + s.schema + s.headings +
    s.canonical + s.speed + s.lcp + s.cls + s.broken_links

/-- `SEOScorer._score_technical` (scoring.py lines 55-116), kept as the
per-sub-metric breakdown; the returned category score is `.total`. -/
def score_technical (a : AuditData) : TechScores :=
  let technical := a.technical.getD emptyTechnical
  let performance := a.performance.getD emptyPerformance
  { https := https_score technical
    mobile := mobile_score technical
    robots_txt := robots_txt_score technical
    sitemap := sitemap_score technical
    schema := schema_score technical
    headings := headings_score technical
    canonical := canonical_score technical
    speed := speed_score (performance.load_time_ms.getD 10000)
    lcp := lcp_score (performance.lcp.getD 5000)
    cls := cls_score (performance.cls.getD 1)
    broken_links := broken_links_score
      ((technical.broken_links.getD emptyBrokenLinksInfo).broken_count.getD 0) }

/-! ## `SEOScorer._score_onpage` -/

/-- `title_score` (lines 128-135). -/
def title_score (title_length : ℕ) : ℤ :=
  if 30 ≤ title_length ∧ title_length ≤ 60 then 15
  else if 20 ≤ title_length ∧ title_length ≤ 70 then 10
  else if title_length > 0 then 5
  else 0

/-- `desc_score` (lines 141-148). -/
def desc_score (desc_length : ℕ) : ℤ :=
  if 120 ≤ desc_length ∧ desc_length ≤ 160 then 15
  else if 100 ≤ desc_length ∧ desc_length ≤ 180 then 10
  else if desc_length > 0 then 5
  else 0

/-- `content_score` (lines 154-163). -/
def content_score (word_count : ℕ) : ℤ :=
  if word_count ≥ 1500 then 20
  else if word_count ≥ 1000 then 16
  else if word_count ≥ 500 then 12
  else if word_count ≥ 300 then 8
  else 4

/-- `image_score` (lines 170-179). -/
def image_score (alt_percentage : ℚ) : ℤ :=
  if alt_percentage ≥ 90 then 15
  else if alt_percentage ≥ 70 then 12
  else if alt_percentage ≥ 50 then 8
  else if alt_percentage ≥ 30 then 5
  else 2

/-- `internal_score` (lines 185-194). -/
def internal_links_score (internal_links : ℕ) : ℤ :=
  if internal_links ≥ 10 then 20
  else if internal_links ≥ 5 then 15
  else if internal_links ≥ 3 then 10
  else if internal_links ≥ 1 then 5
  else 0

/-- `url_score` penalties (lines 203-211), already clamped by the caller's
`max(0, url_score)`. -/
def url_structure_score (url_length : ℕ) (uses_hyphens : Bool) (path_depth : ℕ) : ℤ :=
  max 0 (15 - (if url_length > 100 then 5 else 0)
           - (if ¬uses_hyphens ∧ path_depth > 0 then 3 else 0)
           - (if path_depth > 4 then 4 else 0))

/-- The `scores` dict built by `_score_onpage`. -/
structure OnpageScores where
  title : ℤ
  meta_description : ℤ
  content : ℤ
  images : ℤ
  internal_links : ℤ
  url_structure : ℤ
deriving DecidableEq

/-- `sum(scores.values())` for the on-page category. -/
def OnpageScores.total (s : OnpageScores) : ℤ :=
  s.title + s.meta_description + s.content + s.images + s.internal_links +
    s.url_structure

/-- `SEOScorer._score_onpage` (scoring.py lines 118-214). -/
def score_onpage (a : AuditData) : OnpageScores :=
  let onpage := a.onpage.getD emptyOnpage
  let images := onpage.images.getD emptyImagesInfo
  let url_struct := onpage.url_structure.getD emptyUrlStructureInfo
  { title := title_score (onpage.title_length.getD 0)
    meta_description := desc_score (onpage.meta_description_length.getD 0)
    content := content_score (onpage.word_count.getD 0)
    images := image_score (images.alt_percentage.getD 0)
    internal_links :=
      internal_links_score ((onpage.internal_links.getD emptyLinksInfo).count.getD 0)
    url_structure := url_structure_score (url_struct.length.getD 100)
      (url_struct.uses_hyphens.getD false) (url_struct.path_depth.getD 5) }

/-! ## `SEOScorer._score_competitive` -/

/-- The `scores` dict built by `_score_competitive` on the non-neutral path. -/
structure CompScores where
  serp_position : ℤ
  title_competitiveness : ℤ
  description_competitiveness : ℤ
deriving DecidableEq

/-- `position_score` (lines 227-243), including Python truthiness of
`position` (both `None` and `0` take the `else` branch worth 5). -/
def position_score (position : Option ℕ) : ℤ :=
  match position with
  | some p =>
    if p ≠ 0 then
      if p = 1 then 40
      else if p ≤ 3 then 35
      else if p ≤ 5 then 30
      else if p ≤ 10 then 20
      else 10
    else 5
  | none => 5

/-- `SEOScorer._score_competitive` (scoring.py lines 216-279).  Returns the
category score together with the breakdown dict (`none` when the neutral
early return leaves the breakdown empty); the outer `Option` is the
exception monad for the two divisions by `len(top_competitors)`. -/
def score_competitive (a : AuditData) : Option (ℤ × Option CompScores) :=
  match a.competitors with
  | none => some (50, none)
  | some competitors =>
    if competitors.error.isSome then some (50, none)
    else
      let pos := position_score competitors.current_position
      let top_competitors := competitors.top_competitors.getD []
      if top_competitors.isEmpty then
        some (pos + 25 + 25, some ⟨pos, 25, 25⟩)
      else do
        let avg_comp_title_length ←
          pyDiv ((top_competitors.map (fun c => ((c.title_length.getD 0 : ℕ) : ℚ))).sum)
            top_competitors.length
        let current_title_length := (a.onpage.getD emptyOnpage).title_length.getD 0
        let title_comp_score : ℤ :=
          if 30 ≤ current_title_length ∧ current_title_length ≤ 60 ∧
              |(current_title_length : ℚ) - avg_comp_title_length| < 20 then 30
          else if current_title_length > 0 then 20
          else 5
        let avg_comp_desc_length ←
          pyDiv ((top_competitors.map (fun c => ((c.description_length.getD 0 : ℕ) : ℚ))).sum)
            top_competitors.length
        let current_desc_length := (a.onpage.getD emptyOnpage).meta_description_length.getD 0
        let desc_comp_score : ℤ :=
          if 120 ≤ current_desc_length ∧ current_desc_length ≤ 160 ∧
              |(current_desc_length : ℚ) - avg_comp_desc_length| < 30 then 30
          else if current_desc_length > 0 then 20
          else 5
        some (pos + title_comp_score + desc_comp_score,
          some ⟨pos, title_comp_score, desc_comp_score⟩)

/-- `SEOScorer._get_grade` (scoring.py lines 281-292). -/
def get_grade (score : ℤ) : String :=
  if score ≥ 90 then "A"
  else if score ≥ 80 then "B"
  else if score ≥ 70 then "C"
  else if score ≥ 60 then "D"
  else "F"

/-! ## `SEOScorer._generate_recommendations` -/

/-- One entry of the recommendations list. -/
structure Recommendation where
  priority : String
  category : String
  issue : String
  recommendation : String
deriving DecidableEq

/-- `priority_order.get(x['priority'], 3)` (scoring.py line 393): the fixed
priority ranking, with 3 as the default for unknown keys. -/
def priority_order (p : String) : ℕ :=
  if p = "critical" then 0
  else if p = "high" then 1
  else if p = "medium" then 2
  else 3

/-- The comparison used by the stable sort on line 394. -/
def rec_le (x y : Recommendation) : Bool :=
  decide (priority_order x.priority ≤ priority_order y.priority)

/-- Keyword text interpolated on line 389: `None` prints as `"None"`. -/
def keyword_text : Option String → String
  | some s => s
  | none => "None"

/-- The recommendations accumulated in detection order by
`_generate_recommendations` (scoring.py lines 296-390), before sorting. -/
def detected_recommendations (a : AuditData) : List Recommendation :=
  let technical := a.technical.getD emptyTechnical
  let performance := a.performance.getD emptyPerformance
  let onpage := a.onpage.getD emptyOnpage
  let images := onpage.images.getD emptyImagesInfo
  (if ¬ technical.https.getD false then
    [⟨"critical", "Technical", "No HTTPS/SSL Certificate",
      "Install an SSL certificate to enable HTTPS. This is critical for security and SEO."⟩]
   else []) ++
  (if ¬ technical.mobile_responsive.getD false then
    [⟨"critical", "Technical", "Not Mobile Responsive",
      "Implement responsive design with proper viewport meta tag. Mobile-first indexing requires mobile optimization."⟩]
   else []) ++
  (if performance.load_time_ms.getD 0 > 3000 then
    [⟨"high", "Performance",
      "Slow Page Load (" ++ toString (performance.load_time_ms.getD 0) ++ "ms)",
      "Optimize images, enable caching, minimize CSS/JS, and use a CDN to improve load times."⟩]
   else []) ++
  (if ¬ technical.sitemap_exists.getD false then
    [⟨"high", "Technical", "No XML Sitemap",
      "Create and submit an XML sitemap to help search engines discover your pages."⟩]
   else []) ++
  (if onpage.title_length.getD 0 = 0 then
    [⟨"critical", "On-Page", "Missing Title Tag",
      "Add a unique, descriptive title tag (30-60 characters) to every page."⟩]
   else if onpage.title_length.getD 0 < 30 ∨ onpage.title_length.getD 0 > 60 then
    [⟨"medium", "On-Page",
      "Title Tag Length (" ++ toString (onpage.title_length.getD 0) ++ " chars)",
      "Optimize title tag length to 30-60 characters for better SERP display."⟩]
   else []) ++
  (if onpage.meta_description_length.getD 0 = 0 then
    [⟨"high", "On-Page", "Missing Meta Description",
      "Add a compelling meta description (120-160 characters) to improve click-through rates."⟩]
   else []) ++
  (if images.images_without_alt.getD 0 > 0 then
    [⟨"medium", "On-Page",
      toString (images.images_without_alt.getD 0) ++ " Images Missing Alt Text",
      "Add descriptive alt text to all images for accessibility and SEO."⟩]
   else []) ++
  (if onpage.word_count.getD 0 < 300 then
    [⟨"high", "Content",
      "Thin Content (" ++ toString (onpage.word_count.getD 0) ++ " words)",
      "Add more high-quality, relevant content. Aim for at least 500-1000 words for better rankings."⟩]
   else []) ++
  (match a.competitors with
   | some competitors =>
     if ¬ truthyStr competitors.error then
       match competitors.current_position with
       | some p =>
         if p = 0 then
           [⟨"medium", "Competitive", "Not Ranking in Top 10",
             "Target keyword \x27" ++ keyword_text competitors.keyword ++
               "\x27 - Analyze top-ranking competitors and improve content quality."⟩]
         else []
       | none =>
         [⟨"medium", "Competitive", "Not Ranking in Top 10",
           "Target keyword \x27" ++ keyword_text competitors.keyword ++
             "\x27 - Analyze top-ranking competitors and improve content quality."⟩]
     else []
   | none => [])

/-- `SEOScorer._generate_recommendations` (scoring.py lines 294-396):
detection, a stable ascending sort on the priority ranking (Python
`list.sort` is stable; so is `List.mergeSort`), then `[:10]`. -/
def generate_recommendations (a : AuditData) : List Recommendation :=
  (((detected_recommendations a).mergeSort rec_le).take 10)

/-! ## `SEOScorer.calculate_score` -/

/-- The result dict of `calculate_score`. -/
structure ScoreResult where
  total_score : ℤ
  grade : String
  technical_score : ℤ
  onpage_score : ℤ
  competitive_score : ℤ
  technical_details : TechScores
  onpage_details : OnpageScores
  competitive_details : Option CompScores
  recommendations : List Recommendation
deriving DecidableEq

/-- `SEOScorer.calculate_score` (scoring.py lines 20-53).  The outer
`Option` propagates the (never-raised) division error from
`_score_competitive`. -/
def calculate_score (a : AuditData) : Option ScoreResult := do
  let tech := score_technical a
  let onp := score_onpage a
  let comp ← score_competitive a
  let technical_score := tech.total
  let onpage_score := onp.total
  let competitive_score := comp.1
  let total_score := pyRound ((technical_score * 40 : ℚ) / 100 +
    (onpage_score * 40 : ℚ) / 100 + (competitive_score * 20 : ℚ) / 100)
  some
    { total_score := total_score
      grade := get_grade total_score
      technical_score := technical_score
      onpage_score := onpage_score
      competitive_score := competitive_score
      technical_details := tech
      onpage_details := onp
      competitive_details := comp.2
      recommendations := generate_recommendations a }

/-! ## Engine-side helpers from `audit_engine.py` -/

/-- `SEOAuditEngine._analyze_headings` input: the page's heading elements in
document order, as (level, text) pairs; `find_all('h<i>')` keeps document
order, modelled by `List.filter`. -/
def find_headings (doc : List (ℕ × String)) (i : ℕ) : List String :=
  (doc.filter (fun e => e.1 == i)).map (fun e => e.2)

/-- The dict returned by `_analyze_headings` (audit_engine.py lines 286-298). -/
structure HeadingsResult where
  h1_count : ℕ
  h1_text : String
  has_proper_hierarchy : Bool
  levels : List (ℕ × List String)
deriving DecidableEq

/-- `SEOAuditEngine._analyze_headings` (audit_engine.py lines 286-298). -/
def analyze_headings (doc : List (ℕ × String)) : HeadingsResult :=
  let h1 := find_headings doc 1
  { h1_count := h1.length
    h1_text := match h1 with | [] => "" | t :: _ => t
    has_proper_hierarchy := h1.length == 1
    levels := (List.range 6).map (fun i => (i + 1, find_headings doc (i + 1))) }

/-- One `<img>` element: its `alt` attribute, `none` when absent. -/
structure Img where
  alt : Option String
deriving DecidableEq

/-- Python truthiness of `img.get('alt')`: present and non-empty. -/
def truthyAlt (img : Img) : Bool := truthyStr img.alt

/-- The dict returned by `_analyze_images` (audit_engine.py lines 300-311). -/
structure ImagesResult where
  total_images : ℕ
  images_with_alt : ℕ
  images_without_alt : ℕ
  alt_percentage : ℚ
deriving DecidableEq

/-- `SEOAuditEngine._analyze_images` (audit_engine.py lines 300-311). -/
def analyze_images (images : List Img) : ImagesResult :=
  let total_images := images.length
  let images_with_alt := (images.filter truthyAlt).length
  { total_images := total_images
    images_with_alt := images_with_alt
    images_without_alt := total_images - images_with_alt
    alt_percentage :=
      if total_images > 0 then
        pyRound1 ((images_with_alt : ℚ) / total_images * 100)
      else 0 }

/-- Semantic content of one `application/ld+json` script block's text:
either `json.loads` fails on it (or the parsed value has no `.get`, which
the bare `except` also maps to Invalid), or it is a JSON object whose
optional declared `@type` string is given. -/
inductive SchemaContent where
  | parseFail
  | parsed (ty : Option String)
deriving DecidableEq

/-- One `<script type="application/ld+json">` block; `string := none`
models a falsy `script.string` (no text content). -/
structure ScriptBlock where
  string : Option SchemaContent
deriving DecidableEq

/-- `SEOAuditEngine._extract_schema_type` (audit_engine.py lines 403-410). -/
def extract_schema_type : SchemaContent → String
  | .parseFail => "Invalid"
  | .parsed none => "Unknown"
  | .parsed (some t) => t

/-- The dict returned by `_detect_schema` (audit_engine.py lines 393-401). -/
structure SchemaResult where
  has_schema : Bool
  schema_count : ℕ
  schema_types : List String
deriving DecidableEq

/-- `SEOAuditEngine._detect_schema` (audit_engine.py lines 393-401): the
list comprehension keeps only blocks whose `script.string` is truthy. -/
def detect_schema (scripts : List ScriptBlock) : SchemaResult :=
  { has_schema := decide (0 < scripts.length)
    schema_count := scripts.length
    schema_types := (scripts.filterMap (fun s => s.string)).map extract_schema_type }

/-- `re.sub(r'[^\w\s-]', '', s)`: keep word characters, whitespace and
hyphens (ASCII reading of the character classes). -/
def strip_keyword_chars (s : String) : String :=
  String.mk (s.toList.filter
    (fun c => c.isAlphanum || c == '_' || c.isWhitespace || c == '-'))

/-- Python `str.lower()` (ASCII reading), character by character. -/
def py_lower (s : String) : String := String.mk (s.toList.map Char.toLower)

/-- Python `str.strip()`: drop leading and trailing whitespace. -/
def py_strip (s : String) : String :=
  String.mk (((s.toList.dropWhile Char.isWhitespace).reverse.dropWhile
    Char.isWhitespace).reverse)

/-- Split a character list at every character satisfying `p`, keeping the
(possibly empty) segments between separators. -/
def split_chars (p : Char → Bool) : List Char → List (List Char)
  | [] => [[]]
  | c :: cs =>
    match split_chars p cs with
    | [] => [[c]]
    | g :: gs => if p c then [] :: g :: gs else (c :: g) :: gs

/-- Python `str.split()` with no separator: split on whitespace and drop
the empty pieces. -/
def py_split (s : String) : List String :=
  ((split_chars Char.isWhitespace s.toList).filter (fun g => !g.isEmpty)).map
    String.mk

/-- Lines 361-363 of audit_engine.py: clean the chosen keyword text, keep
the first five words, and return `None` when no words remain. -/
def finish_keyword (keyword : String) : Option String :=
  let cleaned := strip_keyword_chars keyword
  let words := (py_split cleaned).take 5
  if words.isEmpty then none else some (String.intercalate " " words)

/-- `SEOAuditEngine._detect_primary_keyword` (audit_engine.py lines
346-363), as a function of the already-extracted `h1_text` and `title`. -/
def detect_primary_keyword (h1_text title : String) : Option String :=
  if !h1_text.isEmpty then finish_keyword (py_strip (py_lower h1_text))
  else if !title.isEmpty then finish_keyword (py_strip (py_lower title))
  else none

/-- The cleaning pipeline as the spec words it (§4.5): strip to word
characters, whitespace and hyphens, lower-case, first five
whitespace-delimited tokens. -/
def spec_tokens (s : String) : List String :=
  (py_split (strip_keyword_chars (py_strip (py_lower s)))).take 5

/-! ## Helper lemmas -/

theorem pyRound_bounds {x : ℚ} {lo hi : ℤ} (hlo : (lo : ℚ) ≤ x) (hhi : x ≤ (hi : ℚ)) :
    lo ≤ pyRound x ∧ pyRound x ≤ hi := by
  have h1 : lo ≤ ⌊x⌋ := Int.le_floor.mpr hlo
  have h2 : ⌊x⌋ ≤ hi := by
    have h := Int.floor_le_floor hhi
    simpa using h
  unfold pyRound
  split_ifs with hA hB hC
  · exact ⟨h1, h2⟩
  · refine ⟨by omega, ?_⟩
    have h3 : (⌊x⌋ : ℚ) + 1/2 ≤ x := by linarith [not_lt.mp hA]
    have h4 : (⌊x⌋ : ℚ) < (hi : ℚ) := by linarith
    have h5 : ⌊x⌋ < hi := by exact_mod_cast h4
    omega
  · exact ⟨h1, h2⟩
  · refine ⟨by omega, ?_⟩
    have h3 : (⌊x⌋ : ℚ) + 1/2 ≤ x := by linarith [not_lt.mp hA]
    have h4 : (⌊x⌋ : ℚ) < (hi : ℚ) := by linarith
    have h5 : ⌊x⌋ < hi := by exact_mod_cast h4
    omega

theorem pyRound_intCast (n : ℤ) : pyRound (n : ℚ) = n := by
  unfold pyRound
  norm_num

theorem https_score_bounds (t : TechnicalData) :
    0 ≤ https_score t ∧ https_score t ≤ 5 := by
  unfold https_score; split_ifs <;> norm_num

theorem mobile_score_bounds (t : TechnicalData) :
    0 ≤ mobile_score t ∧ mobile_score t ≤ 10 := by
  unfold mobile_score; split_ifs <;> norm_num

theorem robots_txt_score_bounds (t : TechnicalData) :
    0 ≤ robots_txt_score t ∧ robots_txt_score t ≤ 5 := by
  unfold robots_txt_score; split_ifs <;> norm_num

theorem sitemap_score_bounds (t : TechnicalData) :
    0 ≤ sitemap_score t ∧ sitemap_score t ≤ 5 := by
  unfold sitemap_score; split_ifs <;> norm_num

theorem schema_score_bounds (t : TechnicalData) :
    0 ≤ schema_score t ∧ schema_score t ≤ 5 := by
  unfold schema_score; split_ifs <;> norm_num

theorem headings_score_bounds (t : TechnicalData) :
    0 ≤ headings_score t ∧ headings_score t ≤ 10 := by
  simp only [headings_score]; split_ifs <;> norm_num

theorem canonical_score_bounds (t : TechnicalData) :
    0 ≤ canonical_score t ∧ canonical_score t ≤ 5 := by
  unfold canonical_score; split_ifs <;> norm_num

theorem speed_score_bounds (l : ℤ) :
    5 ≤ speed_score l ∧ speed_score l ≤ 25 := by
  unfold speed_score; split_ifs <;> norm_num

theorem lcp_score_bounds (l : ℚ) :
    2 ≤ lcp_score l ∧ lcp_score l ≤ 8 := by
  unfold lcp_score; split_ifs <;> norm_num

theorem cls_score_bounds (c : ℚ) :
    1 ≤ cls_score c ∧ cls_score c ≤ 7 := by
  unfold cls_score; split_ifs <;> norm_num

theorem broken_links_score_bounds (b : ℕ) :
    0 ≤ broken_links_score b ∧ broken_links_score b ≤ 15 := by
  unfold broken_links_score
  rw [Int.max_def]
  split_ifs <;> omega

theorem score_technical_total_bounds (a : AuditData) :
    0 ≤ (score_technical a).total ∧ (score_technical a).total ≤ 100 := by
  obtain ⟨ha1, ha2⟩ := https_score_bounds (a.technical.getD emptyTechnical)
  obtain ⟨hb1, hb2⟩ := mobile_score_bounds (a.technical.getD emptyTechnical)
  obtain ⟨hc1, hc2⟩ := robots_txt_score_bounds (a.technical.getD emptyTechnical)
  obtain ⟨hd1, hd2⟩ := sitemap_score_bounds (a.technical.getD emptyTechnical)
  obtain ⟨he1, he2⟩ := schema_score_bounds (a.technical.getD emptyTechnical)
  obtain ⟨hf1, hf2⟩ := headings_score_bounds (a.technical.getD emptyTechnical)
  obtain ⟨hg1, hg2⟩ := canonical_score_bounds (a.technical.getD emptyTechnical)
  obtain ⟨hh1, hh2⟩ := speed_score_bounds
    ((a.performance.getD emptyPerformance).load_time_ms.getD 10000)
  obtain ⟨hi1, hi2⟩ := lcp_score_bounds
    ((a.performance.getD emptyPerformance).lcp.getD 5000)
  obtain ⟨hj1, hj2⟩ := cls_score_bounds
    ((a.performance.getD emptyPerformance).cls.getD 1)
  obtain ⟨hk1, hk2⟩ := broken_links_score_bounds
    (((a.technical.getD emptyTechnical).broken_links.getD emptyBrokenLinksInfo).broken_count.getD 0)
  simp only [score_technical, TechScores.total]
  omega

theorem title_score_bounds (n : ℕ) : 0 ≤ title_score n ∧ title_score n ≤ 15 := by
  unfold title_score; split_ifs <;> norm_num

theorem desc_score_bounds (n : ℕ) : 0 ≤ desc_score n ∧ desc_score n ≤ 15 := by
  unfold desc_score; split_ifs <;> norm_num

theorem content_score_bounds (n : ℕ) : 4 ≤ content_score n ∧ content_score n ≤ 20 := by
  unfold content_score; split_ifs <;> norm_num

theorem image_score_bounds (q : ℚ) : 2 ≤ image_score q ∧ image_score q ≤ 15 := by
  unfold image_score; split_ifs <;> norm_num

theorem internal_links_score_bounds (n : ℕ) :
    0 ≤ internal_links_score n ∧ internal_links_score n ≤ 20 := by
  unfold internal_links_score; split_ifs <;> norm_num

theorem url_structure_score_bounds (l : ℕ) (h : Bool) (d : ℕ) :
    0 ≤ url_structure_score l h d ∧ url_structure_score l h d ≤ 15 := by
  unfold url_structure_score
  rw [Int.max_def]
  split_ifs <;> omega

theorem score_onpage_total_bounds (a : AuditData) :
    0 ≤ (score_onpage a).total ∧ (score_onpage a).total ≤ 100 := by
  obtain ⟨ha1, ha2⟩ := title_score_bounds ((a.onpage.getD emptyOnpage).title_length.getD 0)
  obtain ⟨hb1, hb2⟩ := desc_score_bounds
    ((a.onpage.getD emptyOnpage).meta_description_length.getD 0)
  obtain ⟨hc1, hc2⟩ := content_score_bounds ((a.onpage.getD emptyOnpage).word_count.getD 0)
  obtain ⟨hd1, hd2⟩ := image_score_bounds
    (((a.onpage.getD emptyOnpage).images.getD emptyImagesInfo).alt_percentage.getD 0)
  obtain ⟨he1, he2⟩ := internal_links_score_bounds
    (((a.onpage.getD emptyOnpage).internal_links.getD emptyLinksInfo).count.getD 0)
  obtain ⟨hf1, hf2⟩ := url_structure_score_bounds
    (((a.onpage.getD emptyOnpage).url_structure.getD emptyUrlStructureInfo).length.getD 100)
    (((a.onpage.getD emptyOnpage).url_structure.getD emptyUrlStructureInfo).uses_hyphens.getD false)
    (((a.onpage.getD emptyOnpage).url_structure.getD emptyUrlStructureInfo).path_depth.getD 5)
  simp only [score_onpage, OnpageScores.total]
  omega

theorem position_score_bounds (p : Option ℕ) :
    5 ≤ position_score p ∧ position_score p ≤ 40 := by
  cases p with
  | none => norm_num [position_score]
  | some q => simp only [position_score]; split_ifs <;> norm_num

theorem score_competitive_spec (a : AuditData) :
    ∃ c d, score_competitive a = some (c, d) ∧ 0 ≤ c ∧ c ≤ 100 := by
  rcases hca : a.competitors with _ | comp
  · exact ⟨50, none, by simp [score_competitive, hca], by norm_num, by norm_num⟩
  · obtain ⟨hp1, hp2⟩ := position_score_bounds comp.current_position
    simp only [score_competitive, hca]
    by_cases herr : comp.error.isSome
    · rw [if_pos herr]
      exact ⟨50, none, rfl, by norm_num, by norm_num⟩
    · rw [if_neg herr]
      by_cases hemp : (comp.top_competitors.getD []).isEmpty
      · rw [if_pos hemp]
        exact ⟨position_score comp.current_position + 25 + 25,
          some ⟨position_score comp.current_position, 25, 25⟩, rfl, by omega, by omega⟩
      · rw [if_neg hemp]
        have hne : (comp.top_competitors.getD []).length ≠ 0 := by
          rw [List.isEmpty_iff] at hemp
          simpa [List.length_eq_zero] using hemp
        have hdiv : ∀ x : ℚ, pyDiv x (comp.top_competitors.getD []).length =
            some (x / (comp.top_competitors.getD []).length) := by
          intro x; simp [pyDiv, hne]
        simp only [hdiv, Option.some_bind]
        refine ⟨_, _, rfl, ?_, ?_⟩ <;> split_ifs <;> omega

/-! ## Claim theorems -/

/-- C1: for every well-formed audit record, `calculate_score` returns a
`total_score` equal to `round(technical*0.4 + onpage*0.4 + competitive*0.2)`
over the three category scores it computes, and `0 ≤ total_score ≤ 100`. -/
theorem C1_total_score_formula_and_bounds (a : AuditData) (r : ScoreResult)
    (h : calculate_score a = some r) :
    r.total_score = pyRound ((r.technical_score : ℚ) * (4/10) +
      (r.onpage_score : ℚ) * (4/10) + (r.competitive_score : ℚ) * (2/10)) ∧
    0 ≤ r.total_score ∧ r.total_score ≤ 100 := by
  obtain ⟨c, d, hc, hc0, hc100⟩ := score_competitive_spec a
  obtain ⟨ht0, ht100⟩ := score_technical_total_bounds a
  obtain ⟨ho0, ho100⟩ := score_onpage_total_bounds a
  simp only [calculate_score, hc, Option.bind_eq_bind, Option.some_bind,
    Option.some_inj] at h
  subst h
  simp only []
  constructor
  · congr 1
    ring
  · apply pyRound_bounds
    · push_cast
      have h1 : (0 : ℚ) ≤ (score_technical a).total := by exact_mod_cast ht0
      have h2 : (0 : ℚ) ≤ (score_onpage a).total := by exact_mod_cast ho0
      have h3 : (0 : ℚ) ≤ c := by exact_mod_cast hc0
      linarith
    · push_cast
      have h1 : ((score_technical a).total : ℚ) ≤ 100 := by exact_mod_cast ht100
      have h2 : ((score_onpage a).total : ℚ) ≤ 100 := by exact_mod_cast ho100
      have h3 : (c : ℚ) ≤ 100 := by exact_mod_cast hc100
      linarith

/-- Witness for C1 at the all-defaults record. -/
theorem C1_total_score_formula_and_bounds_witness :
    ∃ r, calculate_score ⟨none, none, none, none⟩ = some r ∧
      (r.total_score = pyRound ((r.technical_score : ℚ) * (4/10) +
        (r.onpage_score : ℚ) * (4/10) + (r.competitive_score : ℚ) * (2/10)) ∧
       0 ≤ r.total_score ∧ r.total_score ≤ 100) := by
  rcases hr : calculate_score ⟨none, none, none, none⟩ with _ | r
  · exact absurd hr (by decide)
  · exact ⟨r, rfl, C1_total_score_formula_and_bounds ⟨none, none, none, none⟩ r hr⟩

/-- C2: `calculate_score` is total — for every well-formed audit record
(any combination of present/absent fields) it returns a defined result and
never raises; in particular the division by the number of top competitors
(the `none` case of `pyDiv`) is never reached. -/
theorem C2_calculate_score_total (a : AuditData) :
    (calculate_score a).isSome = true := by
  obtain ⟨c, d, hc, -, -⟩ := score_competitive_spec a
  simp [calculate_score, hc]

/-- C3: when the competitors data is missing/empty or carries an error
marker, the competitive category score is exactly 50 (with an empty
breakdown); when it is present without error but the top-competitor list is
empty, the title- and description-competitiveness sub-scores are each 25. -/
theorem C3_competitive_neutral_defaults :
    (∀ a : AuditData,
      (a.competitors = none ∨ ∃ c, a.competitors = some c ∧ c.error.isSome) →
      score_competitive a = some (50, none)) ∧
    (∀ (a : AuditData) (c : CompetitorsData),
      a.competitors = some c → c.error = none → c.top_competitors.getD [] = [] →
      ∃ d : CompScores, score_competitive a = some (d.serp_position + 50, some d) ∧
        d.title_competitiveness = 25 ∧ d.description_competitiveness = 25) := by
  constructor
  · intro a h
    rcases h with h | ⟨c, hc, herr⟩
    · simp [score_competitive, h]
    · simp [score_competitive, hc, herr]
  · intro a c hc herr htop
    refine ⟨⟨position_score c.current_position, 25, 25⟩, ?_, rfl, rfl⟩
    have herr' : c.error.isSome = false := by simp [herr]
    have hemp : (c.top_competitors.getD []).isEmpty = true := by simp [htop]
    simp only [score_competitive, hc, herr', Bool.false_eq_true, if_false, hemp, if_true]
    have h50 : position_score c.current_position + 25 + 25 =
        position_score c.current_position + 50 := by omega
    rw [h50]

/-- An audit record whose competitors dict carries an error marker. -/
def sampleErrorAudit : AuditData :=
  ⟨none, none, none, some ⟨some "running shoes", some "navigation timeout", none, none⟩⟩

/-- An audit record with error-free competitors data but no top competitors. -/
def sampleEmptyTopAudit : AuditData :=
  ⟨none, none, none, some ⟨some "running shoes", none, some 2, some []⟩⟩

/-- Witness for C3 at two concrete records. -/
theorem C3_competitive_neutral_defaults_witness :
    score_competitive sampleErrorAudit = some (50, none) ∧
    ∃ d : CompScores, score_competitive sampleEmptyTopAudit =
        some (d.serp_position + 50, some d) ∧
      d.title_competitiveness = 25 ∧ d.description_competitiveness = 25 :=
  ⟨C3_competitive_neutral_defaults.1 sampleErrorAudit
      (Or.inr ⟨⟨some "running shoes", some "navigation timeout", none, none⟩, rfl, rfl⟩),
   C3_competitive_neutral_defaults.2 sampleEmptyTopAudit
      ⟨some "running shoes", none, some 2, some []⟩ rfl rfl rfl⟩

/-- C4: the broken-link sub-score is 15 at zero broken links and
`max(0, 15 - 3*brokenCount)` otherwise; it is monotonically non-increasing
in the broken count, never negative, and takes the values 15, 0, 0 at
broken counts 0, 5, 10. -/
theorem C4_broken_links_score_properties :
    (∀ b : ℕ, broken_links_score b =
      if b = 0 then 15 else max 0 (15 - 3 * (b : ℤ))) ∧
    (∀ b b' : ℕ, b ≤ b' → broken_links_score b' ≤ broken_links_score b) ∧
    (∀ b : ℕ, 0 ≤ broken_links_score b) ∧
    broken_links_score 0 = 15 ∧ broken_links_score 5 = 0 ∧
    broken_links_score 10 = 0 := by
  refine ⟨?_, ?_, ?_, by decide, by decide, by decide⟩
  · intro b
    unfold broken_links_score
    split_ifs <;> [rfl; (congr 1; ring)]
  · intro b b' hbb
    unfold broken_links_score
    rw [Int.max_def, Int.max_def]
    split_ifs <;> omega
  · intro b
    unfold broken_links_score
    rw [Int.max_def]
    split_ifs <;> omega

/-- Witness for C4's monotonicity hypothesis at broken counts 2 ≤ 4. -/
theorem C4_broken_links_score_properties_witness :
    (2 : ℕ) ≤ 4 ∧ broken_links_score 4 ≤ broken_links_score 2 :=
  ⟨by decide, C4_broken_links_score_properties.2.1 2 4 (by decide)⟩

/-- C8: for every parsed document, `has_proper_hierarchy` holds iff the
number of h1 headings is exactly 1, and `h1_count` is the number of h1
elements collected in document order. -/
theorem C8_heading_hierarchy_iff_single_h1 (doc : List (ℕ × String)) :
    ((analyze_headings doc).has_proper_hierarchy = true ↔
      (analyze_headings doc).h1_count = 1) ∧
    (analyze_headings doc).h1_count =
      ((doc.filter (fun e => e.1 == 1)).map (fun e => e.2)).length := by
  constructor
  · simp [analyze_headings]
  · simp [analyze_headings, find_headings]

/-- C7: the image analysis yields `alt_percentage` exactly 0 when there are
no images (the division is guarded), exactly 100 when every image carries
non-empty alt text, and in general the with-alt fraction as a percentage
rounded to one decimal. -/
theorem C7_alt_percentage_guarded (images : List Img) :
    (images.length = 0 → (analyze_images images).alt_percentage = 0) ∧
    ((∀ i ∈ images, ∃ s, i.alt = some s ∧ s ≠ "") → 0 < images.length →
      (analyze_images images).alt_percentage = 100) ∧
    (0 < images.length → (analyze_images images).alt_percentage =
      pyRound1 (((images.filter truthyAlt).length : ℚ) / images.length * 100)) := by
  refine ⟨?_, ?_, ?_⟩
  · intro h
    simp [analyze_images, h]
  · intro hall hpos
    have hfilter : images.filter truthyAlt = images := by
      rw [List.filter_eq_self]
      intro i hi
      obtain ⟨s, hs, hne⟩ := hall i hi
      simp only [truthyAlt, truthyStr, hs, Bool.not_eq_true']
      exact Bool.eq_false_iff.mpr (fun hT => hne ((String.isEmpty_iff s).mp hT))
    have hne0 : (images.length : ℚ) ≠ 0 := by
      exact_mod_cast Nat.pos_iff_ne_zero.mp hpos
    have hval : ((images.filter truthyAlt).length : ℚ) / images.length * 100 = 100 := by
      rw [hfilter, div_self hne0, one_mul]
    have h1000 : pyRound ((100 : ℚ) * 10) = 1000 := by
      have h := pyRound_intCast 1000
      norm_num at h ⊢
      convert h using 2
    simp only [analyze_images, if_pos hpos, hval, pyRound1, h1000]
    norm_num
  · intro hpos
    simp [analyze_images, if_pos hpos]

/-- Witness for C7 at a no-image list and an all-alt single-image list. -/
theorem C7_alt_percentage_guarded_witness :
    (analyze_images ([] : List Img)).alt_percentage = 0 ∧
    (analyze_images [⟨some "logo"⟩]).alt_percentage = 100 :=
  ⟨(C7_alt_percentage_guarded []).1 rfl,
   (C7_alt_percentage_guarded [⟨some "logo"⟩]).2.1
     (by
       intro i hi
       rw [List.mem_singleton] at hi
       subst hi
       exact ⟨"logo", rfl, by decide⟩)
     (by decide)⟩

theorem finish_keyword_eq (k : String) :
    finish_keyword k =
      if (py_split (strip_keyword_chars k)).take 5 = [] then none
      else some (String.intercalate " " ((py_split (strip_keyword_chars k)).take 5)) := by
  unfold finish_keyword
  by_cases h : (py_split (strip_keyword_chars k)).take 5 = []
  · rw [if_pos h, if_pos (List.isEmpty_iff.mpr h)]
  · rw [if_neg h, if_neg (fun hT => h (List.isEmpty_iff.mp hT))]

/-- C5 counterexample: an h1 of "!!!" is non-empty (and here the title is
non-empty too), yet the keyword detector returns none because cleaning
leaves no tokens — so both-inputs-empty is not its sole failure mode. -/
theorem C5_counterexample :
    detect_primary_keyword "!!!" "My Page Title" = none ∧
    ("!!!" : String) ≠ "" ∧ ("My Page Title" : String) ≠ "" :=
  ⟨by decide, by decide, by decide⟩

/-- C5 (amended): the detector prefers a non-empty h1 over the title, and
returns none exactly when the chosen text yields no tokens after cleaning
(strip to word characters/whitespace/hyphens, lower-case, first five
whitespace tokens) — in particular when both inputs are empty; any returned
string is those tokens joined by single spaces, and for h1
"Best Running Shoes 2024!!" it is "best running shoes 2024". -/
theorem C5_keyword_detector_characterization :
    (∀ h1_text title : String,
      (detect_primary_keyword h1_text title = none ↔
        spec_tokens (if h1_text.isEmpty then title else h1_text) = []) ∧
      (∀ s, detect_primary_keyword h1_text title = some s →
        s = String.intercalate " "
          (spec_tokens (if h1_text.isEmpty then title else h1_text)))) ∧
    detect_primary_keyword "Best Running Shoes 2024!!" "" =
      some "best running shoes 2024" := by
  refine ⟨?_, by decide⟩
  intro h1_text title
  by_cases hh : h1_text.isEmpty
  · rw [if_pos hh]
    by_cases ht : title.isEmpty
    · have h1e : h1_text = "" := (String.isEmpty_iff h1_text).mp hh
      have hte : title = "" := (String.isEmpty_iff title).mp ht
      subst h1e
      subst hte
      refine ⟨by decide, fun s hs => ?_⟩
      rw [show detect_primary_keyword "" "" = none from by decide] at hs
      exact Option.noConfusion hs
    · have ht' : title.isEmpty = false := Bool.eq_false_iff.mpr ht
      have hd : detect_primary_keyword h1_text title =
          finish_keyword (py_strip (py_lower title)) := by
        unfold detect_primary_keyword
        simp [hh, ht']
      have hsp : spec_tokens title =
          (py_split (strip_keyword_chars (py_strip (py_lower title)))).take 5 := rfl
      rw [hd, finish_keyword_eq, ← hsp]
      refine ⟨?_, ?_⟩
      · split_ifs with h
        · simp [h]
        · simp [h]
      · intro s hs
        split_ifs at hs with h
        exact (Option.some_inj.mp hs).symm
  · rw [if_neg hh]
    have hh' : h1_text.isEmpty = false := Bool.eq_false_iff.mpr hh
    have hd : detect_primary_keyword h1_text title =
        finish_keyword (py_strip (py_lower h1_text)) := by
      unfold detect_primary_keyword
      simp [hh']
    have hsp : spec_tokens h1_text =
        (py_split (strip_keyword_chars (py_strip (py_lower h1_text)))).take 5 := rfl
    rw [hd, finish_keyword_eq, ← hsp]
    refine ⟨?_, ?_⟩
    · split_ifs with h
      · simp [h]
      · simp [h]
    · intro s hs
      split_ifs at hs with h
      exact (Option.some_inj.mp hs).symm

/-- Witness for C5's amended claim at a concrete h1/title pair. -/
theorem C5_keyword_detector_characterization_witness :
    detect_primary_keyword "" "Cheap Flights" = some "cheap flights" ∧
    "cheap flights" = String.intercalate " " (spec_tokens "Cheap Flights") :=
  ⟨by decide,
   by
     have h := (C5_keyword_detector_characterization.1 "" "Cheap Flights").2
       "cheap flights" (by decide)
     simpa using h⟩

/-- C9 counterexample: a single schema script block with no text content
(falsy `script.string`, e.g. an empty block — its content cannot parse as
JSON) is counted in `schema_count` but dropped from `schema_types` instead
of being recorded as "Invalid". -/
theorem C9_counterexample :
    (detect_schema [⟨none⟩]).schema_count = 1 ∧
    (detect_schema [⟨none⟩]).schema_types = [] ∧
    "Invalid" ∉ (detect_schema [⟨none⟩]).schema_types :=
  ⟨rfl, rfl, by decide⟩

/-- C9 (amended): `schema_count` equals the number of script blocks found
regardless of parse success; blocks whose text content fails to parse as
JSON are recorded as "Invalid" rather than dropped, but blocks with no
(falsy) text content are dropped from the types list, which therefore has
one entry per block with text content. -/
theorem C9_schema_count_and_types (scripts : List ScriptBlock) :
    (detect_schema scripts).schema_count = scripts.length ∧
    (detect_schema scripts).schema_types.length =
      (scripts.filter (fun b => b.string.isSome)).length ∧
    (detect_schema scripts).schema_types =
      (scripts.filterMap (fun b => b.string)).map extract_schema_type ∧
    extract_schema_type SchemaContent.parseFail = "Invalid" := by
  refine ⟨rfl, ?_, rfl, rfl⟩
  simp only [detect_schema, List.length_map]
  induction scripts with
  | nil => rfl
  | cons b bs ih =>
    cases hb : b.string with
    | none => simpa [List.filterMap_cons, List.filter_cons, hb] using ih
    | some c => simpa [List.filterMap_cons, List.filter_cons, hb] using ih

theorem rec_le_trans (a b c : Recommendation) :
    rec_le a b → rec_le b c → rec_le a c := by
  simp only [rec_le, decide_eq_true_eq]
  omega

theorem rec_le_total (a b : Recommendation) : rec_le a b || rec_le b a := by
  simp only [rec_le, Bool.or_eq_true, decide_eq_true_eq]
  omega

theorem filter_take_eq_take_filter {α : Type} (p : α → Bool) :
    ∀ (l : List α) (n : ℕ), ∃ k, (l.take n).filter p = (l.filter p).take k := by
  intro l
  induction l with
  | nil => exact fun n => ⟨0, by simp⟩
  | cons a t ih =>
    intro n
    cases n with
    | zero => exact ⟨0, by simp⟩
    | succ m =>
      obtain ⟨k, hk⟩ := ih m
      by_cases hpa : p a
      · exact ⟨k + 1, by simp [List.take_succ_cons, List.filter_cons, hpa, hk]⟩
      · exact ⟨k, by simp [List.take_succ_cons, List.filter_cons, hpa, hk]⟩

theorem mergeSort_filter_priority (l : List Recommendation) (p : String) :
    (l.mergeSort rec_le).filter (fun r => r.priority == p) =
      l.filter (fun r => r.priority == p) := by
  have hall : ∀ x ∈ l.filter (fun r => r.priority == p),
      ∀ y ∈ l.filter (fun r => r.priority == p), rec_le x y = true := by
    intro x hx y hy
    rw [List.mem_filter] at hx hy
    have hx2 : x.priority = p := by simpa using hx.2
    have hy2 : y.priority = p := by simpa using hy.2
    simp [rec_le, hx2, hy2]
  have hpair := List.pairwise_of_forall_mem_list hall
  have hsub : List.Sublist (l.filter (fun r => r.priority == p)) (l.mergeSort rec_le) :=
    List.sublist_mergeSort rec_le_trans rec_le_total hpair (List.filter_sublist l)
  have hself : (l.filter (fun r => r.priority == p)).filter
      (fun r => r.priority == p) = l.filter (fun r => r.priority == p) := by
    rw [List.filter_eq_self]
    intro x hx
    exact (List.mem_filter.mp hx).2
  have hsub2 : List.Sublist (l.filter (fun r => r.priority == p))
      ((l.mergeSort rec_le).filter (fun r => r.priority == p)) := by
    have h := hsub.filter (fun r => r.priority == p)
    rwa [hself] at h
  have hlen : ((l.mergeSort rec_le).filter (fun r => r.priority == p)).length =
      (l.filter (fun r => r.priority == p)).length :=
    ((List.mergeSort_perm l rec_le).filter (fun r => r.priority == p)).length_eq
  exact (hsub2.eq_of_length hlen.symm).symm

/-- C6: for every audit record the recommendations list has length at most
10, is sorted by the fixed priority ranking critical < high < medium < low
(non-decreasing along the list), and the sort is stable: the entries of
each priority are an initial run of that priority's entries in detection
order. -/
theorem C6_recommendations_sorted_bounded (a : AuditData) :
    (generate_recommendations a).length ≤ 10 ∧
    (generate_recommendations a).Pairwise
      (fun x y => priority_order x.priority ≤ priority_order y.priority) ∧
    (∀ p : String, ∃ k,
      (generate_recommendations a).filter (fun r => r.priority == p) =
        ((detected_recommendations a).filter (fun r => r.priority == p)).take k) := by
  refine ⟨?_, ?_, ?_⟩
  · simp only [generate_recommendations, List.length_take]
    omega
  · have hs := List.sorted_mergeSort rec_le_trans rec_le_total
      (detected_recommendations a)
    have hs2 : ((detected_recommendations a).mergeSort rec_le).Pairwise
        (fun x y => priority_order x.priority ≤ priority_order y.priority) := by
      refine hs.imp ?_
      intro x y h
      simpa [rec_le] using h
    exact hs2.sublist (List.take_sublist 10 _)
  · intro p
    obtain ⟨k, hk⟩ := filter_take_eq_take_filter (fun r => r.priority == p)
      ((detected_recommendations a).mergeSort rec_le) 10
    refine ⟨k, ?_⟩
    rw [generate_recommendations, hk, mergeSort_filter_priority]

theorem forall_mem_ite {α : Type} (P : α → Prop) (c : Prop) [Decidable c]
    (xs ys : List α) (hxs : ∀ x ∈ xs, P x) (hys : ∀ x ∈ ys, P x) :
    ∀ x ∈ (if c then xs else ys), P x := by
  intro x hx
  split at hx
  · exact hxs x hx
  · exact hys x hx

/-- C10: when `load_time_ms` is missing from the performance data, the
speed sub-score uses the 10000 ms sentinel and is 5 (worst tier), yet no
"Slow Page Load" recommendation is generated because the recommendation
check substitutes 0 for the missing load time — no recommendation of the
Performance category (the only one the slow-load entry carries) appears. -/
theorem C10_missing_load_time_inconsistent_defaults (a : AuditData)
    (h : (a.performance.getD emptyPerformance).load_time_ms = none) :
    (score_technical a).speed = 5 ∧
    ∀ r ∈ generate_recommendations a, r.category ≠ "Performance" := by
  constructor
  · simp only [score_technical]
    rw [h]
    decide
  · have hall : ∀ x ∈ detected_recommendations a, x.category ≠ "Performance" := by
      simp only [detected_recommendations]
      refine List.forall_mem_append.mpr ⟨?_, ?_⟩
      rotate_left
      · rcases hcomp : a.competitors with _ | comp
        · simp
        · simp only []
          refine forall_mem_ite _ _ _ _ ?_ (by simp)
          rcases hpos : comp.current_position with _ | p
          · simp only []
            intro x hx
            rw [List.mem_singleton] at hx
            subst hx
            simp
          · simp only []
            refine forall_mem_ite _ _ _ _ ?_ (by simp)
            intro x hx
            rw [List.mem_singleton] at hx
            subst hx
            simp
      refine List.forall_mem_append.mpr ⟨?_, ?_⟩
      rotate_left
      · refine forall_mem_ite _ _ _ _ ?_ (by simp)
        intro x hx
        rw [List.mem_singleton] at hx
        subst hx
        simp
      refine List.forall_mem_append.mpr ⟨?_, ?_⟩
      rotate_left
      · refine forall_mem_ite _ _ _ _ ?_ (by simp)
        intro x hx
        rw [List.mem_singleton] at hx
        subst hx
        simp
      refine List.forall_mem_append.mpr ⟨?_, ?_⟩
      rotate_left
      · refine forall_mem_ite _ _ _ _ ?_ (by simp)
        intro x hx
        rw [List.mem_singleton] at hx
        subst hx
        simp
      refine List.forall_mem_append.mpr ⟨?_, ?_⟩
      rotate_left
      · refine forall_mem_ite _ _ _ _ ?_ ?_
        · intro x hx
          rw [List.mem_singleton] at hx
          subst hx
          simp
        · refine forall_mem_ite _ _ _ _ ?_ (by simp)
          intro x hx
          rw [List.mem_singleton] at hx
          subst hx
          simp
      refine List.forall_mem_append.mpr ⟨?_, ?_⟩
      rotate_left
      · refine forall_mem_ite _ _ _ _ ?_ (by simp)
        intro x hx
        rw [List.mem_singleton] at hx
        subst hx
        simp
      refine List.forall_mem_append.mpr ⟨?_, ?_⟩
      rotate_left
      · rw [h]
        intro x hx
        simp at hx
      refine List.forall_mem_append.mpr ⟨?_, ?_⟩
      · refine forall_mem_ite _ _ _ _ ?_ (by simp)
        intro x hx
        rw [List.mem_singleton] at hx
        subst hx
        simp
      · refine forall_mem_ite _ _ _ _ ?_ (by simp)
        intro x hx
        rw [List.mem_singleton] at hx
        subst hx
        simp
    intro r hr
    have hr2 : r ∈ (detected_recommendations a).mergeSort rec_le :=
      List.mem_of_mem_take hr
    rw [List.mem_mergeSort] at hr2
    exact hall r hr2

/-- A record with no performance data at all (so `load_time_ms` is absent). -/
def sampleNoPerfAudit : AuditData := ⟨none, none, none, none⟩

/-- Witness for C10 at a record with missing performance data. -/
theorem C10_missing_load_time_inconsistent_defaults_witness :
    (score_technical sampleNoPerfAudit).speed = 5 ∧
    ∀ r ∈ generate_recommendations sampleNoPerfAudit, r.category ≠ "Performance" :=
  C10_missing_load_time_inconsistent_defaults sampleNoPerfAudit rfl
